import Mathlib

/-!
Verification of the idempotent file-creation module
(`plugins/modules/my_own_module.py`): a shallow embedding of `run_module`
and `write_file` over an explicit filesystem model, together with a
faithful model of Python `int(s, 8)` parsing and `os.path.dirname`.
-/

set_option autoImplicit false

namespace MyOwnModule

/-! ## Python `int(s, 8)` parsing

CPython `int(s, 8)` strips surrounding whitespace, accepts an optional
sign, an optional `0o`/`0O` prefix (after which a single underscore is
permitted), and then octal digits separated by optional single
underscores; on any other shape it raises `ValueError`.
-/

def isPyWhitespace (c : Char) : Bool :=
  c == ' ' || c == '\t' || c == '\n' || c == '\r' || c == '\x0b' || c == '\x0c'

def isOctDigit (c : Char) : Bool :=
  '0' ≤ c && c ≤ '7'

def octVal (c : Char) : Nat :=
  c.toNat - '0'.toNat

/-- Octal digits after the first one: `(['_'] digit)*`, all input consumed. -/
def parseOctRest (acc : Nat) : List Char → Option Nat
  | [] => some acc
  | '_' :: c :: cs =>
    if isOctDigit c then parseOctRest (acc * 8 + octVal c) cs else none
  | c :: cs =>
    if isOctDigit c then parseOctRest (acc * 8 + octVal c) cs else none

/-- Octal digit run `digit (['_'] digit)*`; fails on empty input. -/
def parseOctDigits : List Char → Option Nat
  | [] => none
  | c :: cs => if isOctDigit c then parseOctRest (octVal c) cs else none

/-- After a `0o`/`0O` prefix a single underscore may precede the digits. -/
def parseOctBody : List Char → Option Nat
  | '_' :: cs => parseOctDigits cs
  | cs => parseOctDigits cs

/-- Digits with an optional octal prefix (sign already consumed). -/
def parseAfterSign : List Char → Option Nat
  | '0' :: 'o' :: rest => parseOctBody rest
  | '0' :: 'O' :: rest => parseOctBody rest
  | cs => parseOctDigits cs

/-- Model of Python `int(s, 8)`: `some` the parsed value, `none` when the
Python call raises `ValueError`. -/
def pyIntBase8 (s : String) : Option Int :=
  let cs := (((s.toList.dropWhile isPyWhitespace).reverse.dropWhile
      isPyWhitespace).reverse)
  match cs with
  | '+' :: rest => (parseAfterSign rest).map (fun n => (n : Int))
  | '-' :: rest => (parseAfterSign rest).map (fun n => -(n : Int))
  | rest => (parseAfterSign rest).map (fun n => (n : Int))

/-! ## `os.path.dirname` (posixpath)

`dirname(p)` takes everything up to and including the final slash, then
strips trailing slashes unless the head consists only of slashes.
-/

/-- Index of the last `'/'` in the list, if any. -/
def lastSlashPos : List Char → Option Nat
  | [] => none
  | c :: cs =>
    match lastSlashPos cs with
    | some n => some (n + 1)
    | none => if c == '/' then some 0 else none

def os_path_dirname (p : String) : String :=
  match lastSlashPos p.toList with
  | none => ""
  | some i =>
    let head := p.toList.take (i + 1)
    if head.all (fun c => c == '/') then ⟨head⟩
    else ⟨(head.reverse.dropWhile (fun c => c == '/')).reverse⟩

/-! ## Filesystem model

A finite map from path strings to entries.  A symlink records only the
status of its resolved target, which is what `os.path.exists` (false for
a dangling link) and `os.path.isdir` (true for a link to a directory)
observe.
-/

inductive LinkTarget
  | broken
  | toFile
  | toDir
deriving DecidableEq, Repr

inductive FSEntry
  | file (content : String) (perms : Int)
  | dir
  | symlink (target : LinkTarget)
deriving DecidableEq, Repr

abbrev FS := List (String × FSEntry)

def FS.find : FS → String → Option FSEntry
  | [], _ => none
  | (q, e) :: fs, p => if q == p then some e else FS.find fs p

def setEntry : FS → String → FSEntry → FS
  | [], p, e => [(p, e)]
  | (q, e0) :: fs, p, e =>
    if q == p then (p, e) :: fs else (q, e0) :: setEntry fs p e

/-- `os.path.exists`: true for an entry present at the path, except that a
dangling symlink reports false. -/
def os_path_exists (fs : FS) (p : String) : Bool :=
  match FS.find fs p with
  | some (FSEntry.file _ _) => true
  | some FSEntry.dir => true
  | some (FSEntry.symlink t) => !(t == LinkTarget.broken)
  | none => false

/-- `os.path.isdir`: true for a directory or a symlink to a directory. -/
def os_path_isdir (fs : FS) (p : String) : Bool :=
  match FS.find fs p with
  | some FSEntry.dir => true
  | some (FSEntry.symlink LinkTarget.toDir) => true
  | _ => false

/-- Permission bits a fresh file is created with by `open(path, "w")`
(0o666 before umask; the module immediately overrides them via chmod on
every successful run, so the umask is not modelled). -/
def defaultCreatePerms : Int := 0o666

/-- `open(path, "w")` + write + close.  Creates the file when the path is
absent; truncates and rewrites an existing regular file keeping its
permission bits; fails on a directory; follows a symlink (writing through
a dangling link materialises its target, recorded by upgrading the link
status — the unnamed target path itself is outside the map). -/
def openWrite (fs : FS) (p : String) (content : String) : Except String FS :=
  match FS.find fs p with
  | none => Except.ok ((p, FSEntry.file content defaultCreatePerms) :: fs)
  | some (FSEntry.file _ perms) =>
    Except.ok (setEntry fs p (FSEntry.file content perms))
  | some FSEntry.dir => Except.error "Is a directory"
  | some (FSEntry.symlink LinkTarget.toDir) => Except.error "Is a directory"
  | some (FSEntry.symlink _) =>
    Except.ok (setEntry fs p (FSEntry.symlink LinkTarget.toFile))

/-- `os.chmod`: sets the permission bits of a regular file; on a directory
or symlink the flag change is outside what the map records; fails when the
path does not exist. -/
def os_chmod (fs : FS) (p : String) (m : Int) : Except String FS :=
  match FS.find fs p with
  | some (FSEntry.file c _) => Except.ok (setEntry fs p (FSEntry.file c m))
  | some FSEntry.dir => Except.ok fs
  | some (FSEntry.symlink _) => Except.ok fs
  | none => Except.error "No such file or directory"

/-- Platform-error injection: `writeErr` is the text of an `OSError`
raised by `open`/`write` (before any mutation), `chmodErr` one raised by
`os.chmod` (after the file has been written). -/
structure Faults where
  writeErr : Option String
  chmodErr : Option String
deriving DecidableEq, Repr

def noFaults : Faults := ⟨none, none⟩

/-- `write_file(path, content, mode)` from the source: write the content,
then `os.chmod(path, int(mode, 8))`.  The second component is the text of
a raised exception, if any; the first is the filesystem after whatever
mutations happened before the raise. -/
def write_file (fs : FS) (path content mode : String) (faults : Faults) :
    FS × Option String :=
  match faults.writeErr with
  | some e => (fs, some e)
  | none =>
    match openWrite fs path content with
    | Except.error e => (fs, some e)
    | Except.ok fs1 =>
      match faults.chmodErr with
      | some e => (fs1, some e)
      | none =>
        match pyIntBase8 mode with
        | none => (fs1, some ("invalid literal for int() with base 8: " ++ mode))
        | some m =>
          match os_chmod fs1 path m with
          | Except.error e => (fs1, some e)
          | Except.ok fs2 => (fs2, none)

/-! ## `run_module` -/

/-- The `result` dict: `created`, `path`, `content`. -/
structure ResultDict where
  created : Bool
  path : String
  content : String
deriving DecidableEq, Repr

/-- Module termination: `exit_json(**result)` or `fail_json(msg, ...)`.
The second field of `fail` records the `**result` keyword fields when the
source passes them (the invalid-mode failure passes only `msg`). -/
inductive Outcome
  | exit (r : ResultDict)
  | fail (msg : String) (fields : Option ResultDict)
deriving DecidableEq, Repr

def invalidModeMsg (mode : String) : String :=
  "Invalid mode \x27" ++ mode ++ "\x27. Use octal format like \x270644\x27."

def missingParentMsg (dirname : String) : String :=
  "Parent directory does not exist: " ++ dirname

def writeFailedMsg (path errText : String) : String :=
  "Failed to create file \x27" ++ path ++ "\x27: " ++ errText

/-- Steps of `run_module` after the existence check: dry-run short-circuit,
then the write attempt. -/
def doCreate (path content mode : String) (check_mode : Bool) (fs : FS)
    (faults : Faults) : Outcome × FS :=
  if check_mode then (Outcome.exit ⟨true, path, content⟩, fs)
  else
    match write_file fs path content mode faults with
    | (fs1, some e) =>
      (Outcome.fail (writeFailedMsg path e) (some ⟨true, path, content⟩), fs1)
    | (fs1, none) => (Outcome.exit ⟨true, path, content⟩, fs1)

/-- Steps of `run_module` after the parent-directory check: the
`os.path.exists` idempotency gate. -/
def checkExists (path content mode : String) (check_mode : Bool) (fs : FS)
    (faults : Faults) : Outcome × FS :=
  if os_path_exists fs path then (Outcome.exit ⟨false, path, content⟩, fs)
  else doCreate path content mode check_mode fs faults

/-- Steps of `run_module` after mode validation: the parent-directory
check (`if dirname and not os.path.isdir(dirname)`). -/
def checkParent (path content mode : String) (check_mode : Bool) (fs : FS)
    (faults : Faults) : Outcome × FS :=
  let dirname := os_path_dirname path
  if !(dirname == "") && !(os_path_isdir fs dirname) then
    (Outcome.fail (missingParentMsg dirname) (some ⟨false, path, content⟩), fs)
  else checkExists path content mode check_mode fs faults

/-- `run_module` from the source.  `check_mode` is the ambient Ansible
check-mode flag (the dry-run switch); `faults` injects platform errors at
the write/chmod calls. -/
def run_module (path content mode : String) (check_mode : Bool) (fs : FS)
    (faults : Faults) : Outcome × FS :=
  match pyIntBase8 mode with
  | none => (Outcome.fail (invalidModeMsg mode) none, fs)
  | some _ => checkParent path content mode check_mode fs faults

/-- The parent-directory check passes: the computed dirname is empty or an
existing directory. -/
def parentOk (fs : FS) (p : String) : Bool :=
  (os_path_dirname p == "") || os_path_isdir fs (os_path_dirname p)

/-- The run would reach the write step: mode parses, parent check passes,
and nothing exists at the path. -/
def reachesWriteStep (path mode : String) (fs : FS) : Bool :=
  (pyIntBase8 mode).isSome && parentOk fs path && !(os_path_exists fs path)

/-- Identifies the invalid-mode failure: the only `fail_json` call that
passes no `**result` fields. -/
def Outcome.invalidModeFail : Outcome → Bool
  | Outcome.fail _ none => true
  | _ => false

/-- Identifies the write-failure outcome: a `fail_json` whose payload
carries `created = true`. -/
def Outcome.writeFailedOutcome : Outcome → Bool
  | Outcome.fail _ (some r) => r.created
  | _ => false

/-! ## Helper lemmas -/

lemma parent_cond_false {fs : FS} {path : String} (hp : parentOk fs path = true) :
    (!(os_path_dirname path == "") && !(os_path_isdir fs (os_path_dirname path)))
      = false := by
  unfold parentOk at hp
  cases h1 : (os_path_dirname path == "") <;> simp_all

lemma find_setEntry_self (fs : FS) (p : String) (e : FSEntry) :
    FS.find (setEntry fs p e) p = some e := by
  induction fs with
  | nil => simp [setEntry, FS.find]
  | cons pe fs ih =>
    obtain ⟨q, e0⟩ := pe
    cases h : (q == p) <;> simp [setEntry, h, FS.find, ih]

lemma exists_false_cases {fs : FS} {p : String}
    (hx : os_path_exists fs p = false) :
    FS.find fs p = none ∨ FS.find fs p = some (FSEntry.symlink LinkTarget.broken) := by
  unfold os_path_exists at hx
  cases h : FS.find fs p with
  | none => exact Or.inl rfl
  | some e =>
    cases e with
    | file c w => rw [h] at hx; simp at hx
    | dir => rw [h] at hx; simp at hx
    | symlink t => cases t <;> simp_all

lemma exists_openWrite {fs fs1 : FS} {p c : String}
    (h : openWrite fs p c = Except.ok fs1) : os_path_exists fs1 p = true := by
  unfold openWrite at h
  cases hf : FS.find fs p with
  | none =>
    rw [hf] at h
    cases h
    simp [os_path_exists, FS.find]
  | some e =>
    rw [hf] at h
    cases e with
    | file c0 w =>
      cases h
      simp [os_path_exists, find_setEntry_self]
    | dir => cases h
    | symlink t =>
      cases t with
      | toDir => cases h
      | broken => cases h; simp [os_path_exists, find_setEntry_self]
      | toFile => cases h; simp [os_path_exists, find_setEntry_self]

lemma exists_chmod {fs1 fs2 : FS} {p : String} {m : Int}
    (h : os_chmod fs1 p m = Except.ok fs2)
    (hx : os_path_exists fs1 p = true) : os_path_exists fs2 p = true := by
  unfold os_chmod at h
  cases hf : FS.find fs1 p with
  | none => rw [hf] at h; cases h
  | some e =>
    rw [hf] at h
    cases e with
    | file c0 w => cases h; simp [os_path_exists, find_setEntry_self]
    | dir => cases h; exact hx
    | symlink t => cases h; exact hx

lemma write_file_exists {fs fs2 : FS} {p c mode : String} {faults : Faults}
    (h : write_file fs p c mode faults = (fs2, none)) :
    os_path_exists fs2 p = true := by
  unfold write_file at h
  cases hw : faults.writeErr with
  | some e => rw [hw] at h; simp at h
  | none =>
    rw [hw] at h
    cases ho : openWrite fs p c with
    | error e => rw [ho] at h; simp at h
    | ok fs1 =>
      rw [ho] at h
      cases hc : faults.chmodErr with
      | some e => rw [hc] at h; simp at h
      | none =>
        rw [hc] at h
        cases hm : pyIntBase8 mode with
        | none => rw [hm] at h; simp at h
        | some m =>
          rw [hm] at h
          dsimp only at h
          cases hch : os_chmod fs1 p m with
          | error e => rw [hch] at h; simp at h
          | ok fs3 =>
            rw [hch] at h
            simp only [Prod.mk.injEq] at h
            rw [← h.1]
            exact exists_chmod hch (exists_openWrite ho)

/-! ## Claims -/

/-- C1: with a valid octal `mode`, no entry at `path`, a passing
parent-directory check, check mode off and no platform faults, the run
exits successfully with `created = true`, echoing `path` and `content`,
and the filesystem gains exactly one entry: a file at `path` holding
`content` with permission bits equal to the base-8 parse of `mode`. -/
theorem c1_creation_correct (path content mode : String) (m : Int) (fs : FS)
    (hm : pyIntBase8 mode = some m)
    (hfind : FS.find fs path = none)
    (hp : parentOk fs path = true) :
    run_module path content mode false fs noFaults =
      (Outcome.exit ⟨true, path, content⟩, (path, FSEntry.file content m) :: fs) := by
  have hex : os_path_exists fs path = false := by simp [os_path_exists, hfind]
  simp [run_module, hm, checkParent, parent_cond_false hp, checkExists, hex,
    doCreate, write_file, noFaults, openWrite, hfind, os_chmod, FS.find,
    setEntry]

theorem c1_creation_correct_witness :
    run_module "/tmp/test1/placeholder.txt" "hello" "0644" false
        [("/tmp/test1", FSEntry.dir)] noFaults =
      (Outcome.exit ⟨true, "/tmp/test1/placeholder.txt", "hello"⟩,
        [("/tmp/test1/placeholder.txt", FSEntry.file "hello" 420),
         ("/tmp/test1", FSEntry.dir)]) :=
  c1_creation_correct "/tmp/test1/placeholder.txt" "hello" "0644" 420
    [("/tmp/test1", FSEntry.dir)] (by decide) (by decide) (by decide)

/-- C4: whenever the `mode` string fails Python base-8 parsing, the run
fails immediately with the invalid-mode message carrying the offending
string, passes no result fields, and leaves any filesystem unchanged —
for every filesystem, check-mode flag and fault configuration, showing
no filesystem access takes part in the outcome. -/
theorem c4_invalid_mode (path content mode : String) (check : Bool) (fs : FS)
    (faults : Faults) (hm : pyIntBase8 mode = none) :
    run_module path content mode check fs faults =
      (Outcome.fail (invalidModeMsg mode) none, fs) := by
  simp [run_module, hm]

theorem c4_invalid_mode_witness :
    run_module "/tmp/x" "c" "89" false [] noFaults =
      (Outcome.fail (invalidModeMsg "89") none, []) :=
  c4_invalid_mode "/tmp/x" "c" "89" false [] noFaults (by decide)

/-- C5: with a valid `mode`, whenever the computed parent directory of
`path` is non-empty and is not a directory, the run fails with the
missing-parent message carrying the computed parent path, for every
filesystem (in particular whether or not an entry exists at `path`
itself), check-mode flag and fault configuration, leaving the filesystem
unchanged. -/
theorem c5_missing_parent (path content mode : String) (m : Int) (check : Bool)
    (fs : FS) (faults : Faults)
    (hm : pyIntBase8 mode = some m)
    (hne : (os_path_dirname path == "") = false)
    (hnd : os_path_isdir fs (os_path_dirname path) = false) :
    run_module path content mode check fs faults =
      (Outcome.fail (missingParentMsg (os_path_dirname path))
        (some ⟨false, path, content⟩), fs) := by
  simp [run_module, hm, checkParent, hne, hnd]

theorem c5_missing_parent_witness :
    run_module "/x/y" "c" "0644" false [("/x/y", FSEntry.file "old" 420)]
        noFaults =
      (Outcome.fail (missingParentMsg "/x") (some ⟨false, "/x/y", "c"⟩),
        [("/x/y", FSEntry.file "old" 420)]) :=
  c5_missing_parent "/x/y" "c" "0644" 420 false
    [("/x/y", FSEntry.file "old" 420)] noFaults (by decide) (by decide)
    (by decide)

/-- C2 counterexample: a dangling symlink is a filesystem entry at the
path, yet the run reports `created = true` (and attempts the write),
because `os.path.exists` returns false for broken symlinks — refuting the
claim that any pre-existing entry yields `created = false` and no write. -/
theorem c2_existing_counterexample :
    FS.find [("/d", FSEntry.dir), ("/d/f", FSEntry.symlink LinkTarget.broken)]
        "/d/f" = some (FSEntry.symlink LinkTarget.broken)
    ∧ run_module "/d/f" "x" "0644" false
        [("/d", FSEntry.dir), ("/d/f", FSEntry.symlink LinkTarget.broken)]
        noFaults =
      (Outcome.exit ⟨true, "/d/f", "x"⟩,
        [("/d", FSEntry.dir), ("/d/f", FSEntry.symlink LinkTarget.toFile)]) := by
  constructor
  · decide
  · decide

/-- C2 (amended): for every path that `os.path.exists` reports as existing
(file, directory, or symlink with a live target — dangling symlinks count
as absent), any valid `mode`, any content, any check-mode flag and any
fault configuration, the run succeeds with `created = false`, echoes
`path` and `content`, and returns the filesystem unchanged; repeated
invocations are therefore no-ops. -/
theorem c2_idempotent_existing (path content mode : String) (m : Int)
    (check : Bool) (fs : FS) (faults : Faults)
    (hm : pyIntBase8 mode = some m)
    (hp : parentOk fs path = true)
    (hex : os_path_exists fs path = true) :
    run_module path content mode check fs faults =
      (Outcome.exit ⟨false, path, content⟩, fs) := by
  simp [run_module, hm, checkParent, parent_cond_false hp, checkExists, hex]

theorem c2_idempotent_existing_witness :
    run_module "/d/f" "new" "0755" false
        [("/d", FSEntry.dir), ("/d/f", FSEntry.file "old" 420)] noFaults =
      (Outcome.exit ⟨false, "/d/f", "new"⟩,
        [("/d", FSEntry.dir), ("/d/f", FSEntry.file "old" 420)]) :=
  c2_idempotent_existing "/d/f" "new" "0755" 493 false
    [("/d", FSEntry.dir), ("/d/f", FSEntry.file "old" 420)] noFaults
    (by decide) (by decide) (by decide)

/-- C3: with a valid `mode`, a passing parent check and nothing existing
at `path`, a check-mode (dry-run) invocation exits successfully with
`created = true`, echoes the inputs, and returns the filesystem
unchanged, for every fault configuration. -/
theorem c3_dry_run_no_mutation (path content mode : String) (m : Int)
    (fs : FS) (faults : Faults)
    (hm : pyIntBase8 mode = some m)
    (hp : parentOk fs path = true)
    (hex : os_path_exists fs path = false) :
    run_module path content mode true fs faults =
      (Outcome.exit ⟨true, path, content⟩, fs) := by
  simp [run_module, hm, checkParent, parent_cond_false hp, checkExists, hex,
    doCreate]

theorem c3_dry_run_no_mutation_witness :
    run_module "/d/f" "c" "0644" true [("/d", FSEntry.dir)] noFaults =
      (Outcome.exit ⟨true, "/d/f", "c"⟩, [("/d", FSEntry.dir)]) :=
  c3_dry_run_no_mutation "/d/f" "c" "0644" 420 [("/d", FSEntry.dir)] noFaults
    (by decide) (by decide) (by decide)

/-- C6: when the run reaches the write step (valid `mode`, parent check
passes, nothing at `path`, check mode off) and either the write raises a
platform error `e`, or the write succeeds and the permission-set raises
`e`, the run fails with the write-failure message carrying the path and
the error text, and the failure payload carries `created = true`. -/
theorem c6_write_failed (path content mode : String) (m : Int) (e : String)
    (fs : FS) (faults : Faults)
    (hm : pyIntBase8 mode = some m)
    (hp : parentOk fs path = true)
    (hex : os_path_exists fs path = false)
    (hf : faults.writeErr = some e
      ∨ (faults.writeErr = none ∧ faults.chmodErr = some e)) :
    (run_module path content mode false fs faults).1 =
      Outcome.fail (writeFailedMsg path e) (some ⟨true, path, content⟩) := by
  rcases hf with hw | ⟨hw, hc⟩
  · simp [run_module, hm, checkParent, parent_cond_false hp, checkExists, hex,
      doCreate, write_file, hw]
  · rcases exists_false_cases hex with hfind | hfind <;>
      simp [run_module, hm, checkParent, parent_cond_false hp, checkExists,
        hex, doCreate, write_file, hw, hc, openWrite, hfind]

theorem c6_write_failed_witness :
    (run_module "/d/f" "c" "0644" false [("/d", FSEntry.dir)]
        ⟨some "disk full", none⟩).1 =
      Outcome.fail (writeFailedMsg "/d/f" "disk full")
        (some ⟨true, "/d/f", "c"⟩) :=
  c6_write_failed "/d/f" "c" "0644" 420 "disk full" [("/d", FSEntry.dir)]
    ⟨some "disk full", none⟩ (by decide) (by decide) (by decide)
    (Or.inl rfl)

lemma checkParent_not_invalidModeFail (path content mode : String)
    (check : Bool) (fs : FS) (faults : Faults) :
    (checkParent path content mode check fs faults).1.invalidModeFail
      = false := by
  cases hpc : (!(os_path_dirname path == "")
      && !(os_path_isdir fs (os_path_dirname path))) with
  | true => simp [checkParent, hpc, Outcome.invalidModeFail]
  | false =>
    cases hx : os_path_exists fs path with
    | true =>
      simp [checkParent, hpc, checkExists, hx, Outcome.invalidModeFail]
    | false =>
      cases check with
      | true =>
        simp [checkParent, hpc, checkExists, hx, doCreate,
          Outcome.invalidModeFail]
      | false =>
        rcases hw : write_file fs path content mode faults with ⟨fs1, err⟩
        cases err <;>
          simp [checkParent, hpc, checkExists, hx, doCreate, hw,
            Outcome.invalidModeFail]

/-- C7 counterexample: the invalid-mode failure is raised via
`fail_json(msg=...)` alone, before `result["path"]`/`result["content"]`
are assigned, so its payload carries no `path`/`content` fields —
refuting the claim that every failure payload contains them. -/
theorem c7_payload_counterexample :
    (run_module "/t/f" "c" "xyz" false [] noFaults).1 =
      Outcome.fail (invalidModeMsg "xyz") none := by
  decide

/-- C7 (amended): every failure outcome is one of exactly three shapes —
the invalid-mode failure, whose message carries the offending mode string
but whose payload has no fields; the missing-parent failure, whose
message carries the computed parent path and whose payload echoes `path`
and `content` with `created = false`; or the write failure, whose message
carries the path and the underlying error text and whose payload echoes
`path` and `content` with `created = true`. -/
theorem c7_failure_payloads (path content mode : String) (check : Bool)
    (fs : FS) (faults : Faults) (msg : String) (fields : Option ResultDict)
    (h : (run_module path content mode check fs faults).1
      = Outcome.fail msg fields) :
    (msg = invalidModeMsg mode ∧ fields = none ∧ pyIntBase8 mode = none)
    ∨ (msg = missingParentMsg (os_path_dirname path)
        ∧ fields = some ⟨false, path, content⟩)
    ∨ (∃ e, msg = writeFailedMsg path e
        ∧ fields = some ⟨true, path, content⟩) := by
  cases hm : pyIntBase8 mode with
  | none =>
    have heq : (run_module path content mode check fs faults).1
        = Outcome.fail (invalidModeMsg mode) none := by
      simp [run_module, hm]
    rw [heq] at h
    injection h with h1 h2
    exact Or.inl ⟨h1.symm, h2.symm, rfl⟩
  | some m =>
    cases hpc : (!(os_path_dirname path == "")
        && !(os_path_isdir fs (os_path_dirname path))) with
    | true =>
      have heq : (run_module path content mode check fs faults).1
          = Outcome.fail (missingParentMsg (os_path_dirname path))
              (some ⟨false, path, content⟩) := by
        simp [run_module, hm, checkParent, hpc]
      rw [heq] at h
      injection h with h1 h2
      exact Or.inr (Or.inl ⟨h1.symm, h2.symm⟩)
    | false =>
      cases hx : os_path_exists fs path with
      | true =>
        have heq : (run_module path content mode check fs faults).1
            = Outcome.exit ⟨false, path, content⟩ := by
          simp [run_module, hm, checkParent, hpc, checkExists, hx]
        rw [heq] at h
        cases h
      | false =>
        cases check with
        | true =>
          have heq : (run_module path content mode true fs faults).1
              = Outcome.exit ⟨true, path, content⟩ := by
            simp [run_module, hm, checkParent, hpc, checkExists, hx, doCreate]
          rw [heq] at h
          cases h
        | false =>
          rcases hw : write_file fs path content mode faults with ⟨fs1, err⟩
          cases err with
          | none =>
            have heq : (run_module path content mode false fs faults).1
                = Outcome.exit ⟨true, path, content⟩ := by
              simp [run_module, hm, checkParent, hpc, checkExists, hx,
                doCreate, hw]
            rw [heq] at h
            cases h
          | some e =>
            have heq : (run_module path content mode false fs faults).1
                = Outcome.fail (writeFailedMsg path e)
                    (some ⟨true, path, content⟩) := by
              simp [run_module, hm, checkParent, hpc, checkExists, hx,
                doCreate, hw]
            rw [heq] at h
            injection h with h1 h2
            exact Or.inr (Or.inr ⟨e, h1.symm, h2.symm⟩)

theorem c7_failure_payloads_witness :
    ("Parent directory does not exist: /x" = invalidModeMsg "0644"
      ∧ (some ⟨false, "/x/y", "c"⟩ : Option ResultDict) = none
      ∧ pyIntBase8 "0644" = none)
    ∨ ("Parent directory does not exist: /x"
          = missingParentMsg (os_path_dirname "/x/y")
        ∧ (some ⟨false, "/x/y", "c"⟩ : Option ResultDict)
          = some ⟨false, "/x/y", "c"⟩)
    ∨ (∃ e, "Parent directory does not exist: /x" = writeFailedMsg "/x/y" e
        ∧ (some ⟨false, "/x/y", "c"⟩ : Option ResultDict)
          = some ⟨true, "/x/y", "c"⟩) :=
  c7_failure_payloads "/x/y" "c" "0644" false [] noFaults
    "Parent directory does not exist: /x" (some ⟨false, "/x/y", "c"⟩)
    (by decide)

/-- C8: on every successful exit, the result echoes `path` and `content`
verbatim, and `created = true` holds exactly when either check mode is
off and the filesystem actually changed, or check mode is on and nothing
existed at `path` (so the write would have been performed). -/
theorem c8_success_result (path content mode : String) (check : Bool)
    (fs : FS) (faults : Faults) (r : ResultDict) (fs2 : FS)
    (h : run_module path content mode check fs faults
      = (Outcome.exit r, fs2)) :
    r.path = path ∧ r.content = content ∧
      (r.created = true ↔
        ((check = false ∧ fs2 ≠ fs)
          ∨ (check = true ∧ os_path_exists fs path = false))) := by
  cases hm : pyIntBase8 mode with
  | none =>
    have heq : run_module path content mode check fs faults
        = (Outcome.fail (invalidModeMsg mode) none, fs) := by
      simp [run_module, hm]
    rw [heq] at h
    simp at h
  | some m =>
    cases hpc : (!(os_path_dirname path == "")
        && !(os_path_isdir fs (os_path_dirname path))) with
    | true =>
      have heq : run_module path content mode check fs faults
          = (Outcome.fail (missingParentMsg (os_path_dirname path))
              (some ⟨false, path, content⟩), fs) := by
        simp [run_module, hm, checkParent, hpc]
      rw [heq] at h
      simp at h
    | false =>
      cases hx : os_path_exists fs path with
      | true =>
        have heq : run_module path content mode check fs faults
            = (Outcome.exit ⟨false, path, content⟩, fs) := by
          simp [run_module, hm, checkParent, hpc, checkExists, hx]
        rw [heq] at h
        simp only [Prod.mk.injEq, Outcome.exit.injEq] at h
        obtain ⟨h1, h2⟩ := h
        subst h1
        subst h2
        refine ⟨rfl, rfl, ?_⟩
        simp [hx]
      | false =>
        cases check with
        | true =>
          have heq : run_module path content mode true fs faults
              = (Outcome.exit ⟨true, path, content⟩, fs) := by
            simp [run_module, hm, checkParent, hpc, checkExists, hx, doCreate]
          rw [heq] at h
          simp only [Prod.mk.injEq, Outcome.exit.injEq] at h
          obtain ⟨h1, h2⟩ := h
          subst h1
          subst h2
          refine ⟨rfl, rfl, ?_⟩
          simp [hx]
        | false =>
          rcases hw : write_file fs path content mode faults with ⟨fs1, err⟩
          cases err with
          | some e =>
            have heq : run_module path content mode false fs faults
                = (Outcome.fail (writeFailedMsg path e)
                    (some ⟨true, path, content⟩), fs1) := by
              simp [run_module, hm, checkParent, hpc, checkExists, hx,
                doCreate, hw]
            rw [heq] at h
            simp at h
          | none =>
            have heq : run_module path content mode false fs faults
                = (Outcome.exit ⟨true, path, content⟩, fs1) := by
              simp [run_module, hm, checkParent, hpc, checkExists, hx,
                doCreate, hw]
            rw [heq] at h
            simp only [Prod.mk.injEq, Outcome.exit.injEq] at h
            obtain ⟨h1, h2⟩ := h
            subst h1
            subst h2
            refine ⟨rfl, rfl, ?_⟩
            have hx2 : os_path_exists fs1 path = true := write_file_exists hw
            simp only [true_and, false_and, or_false, true_iff]
            left
            intro heq2
            rw [heq2] at hx2
            rw [hx2] at hx
            cases hx

theorem c8_success_result_witness :
    (⟨true, "/d/f", "c"⟩ : ResultDict).path = "/d/f"
    ∧ (⟨true, "/d/f", "c"⟩ : ResultDict).content = "c"
    ∧ ((⟨true, "/d/f", "c"⟩ : ResultDict).created = true ↔
        ((false = false
            ∧ [("/d/f", FSEntry.file "c" 420), ("/d", FSEntry.dir)]
              ≠ [("/d", FSEntry.dir)])
          ∨ (false = true
            ∧ os_path_exists [("/d", FSEntry.dir)] "/d/f" = false))) :=
  c8_success_result "/d/f" "c" "0644" false [("/d", FSEntry.dir)] noFaults
    ⟨true, "/d/f", "c"⟩ [("/d/f", FSEntry.file "c" 420), ("/d", FSEntry.dir)]
    (by decide)

/-- C9: the run fails with the invalid-mode failure exactly when Python
`int(mode, 8)` raises `ValueError`; in particular the strings "-644",
" 644 " and "0o644" parse successfully (to -420, 420 and 420), so they
pass mode validation and proceed to the filesystem steps. -/
theorem c9_mode_validation_boundary (path content mode : String)
    (check : Bool) (fs : FS) (faults : Faults) :
    ((run_module path content mode check fs faults).1.invalidModeFail = true
      ↔ pyIntBase8 mode = none)
    ∧ pyIntBase8 "-644" = some (-420)
    ∧ pyIntBase8 " 644 " = some 420
    ∧ pyIntBase8 "0o644" = some 420 := by
  refine ⟨?_, by decide, by decide, by decide⟩
  cases hm : pyIntBase8 mode with
  | none => simp [run_module, hm, Outcome.invalidModeFail]
  | some m =>
    simp [run_module, hm, checkParent_not_invalidModeFail]

/-- C10: check mode never mutates the filesystem and can never produce
the write-failure outcome; moreover a check-mode run agrees exactly with
the corresponding real run whenever the write step is not reached, and
diverges from it only at the write step, where it exits with
`created = true` and the filesystem untouched. -/
theorem c10_check_mode_noninterference (path content mode : String)
    (fs : FS) (faults : Faults) :
    (run_module path content mode true fs faults =
      if reachesWriteStep path mode fs
      then (Outcome.exit ⟨true, path, content⟩, fs)
      else run_module path content mode false fs faults)
    ∧ (run_module path content mode true fs faults).2 = fs
    ∧ (run_module path content mode true fs faults).1.writeFailedOutcome
        = false := by
  cases hm : pyIntBase8 mode with
  | none =>
    simp [run_module, hm, reachesWriteStep, Outcome.writeFailedOutcome]
  | some m =>
    simp only [run_module, hm]
    unfold checkParent checkExists doCreate reachesWriteStep parentOk
    cases hd : (os_path_dirname path == "") <;>
      cases hi : os_path_isdir fs (os_path_dirname path) <;>
        cases hx : os_path_exists fs path <;>
          simp [hm, hd, hi, hx, Outcome.writeFailedOutcome]

end MyOwnModule
